import Mathlib

/-!
Shallow embedding of src/gesture_classification/model.py (class LitModel).

Tensors are modelled positionally: a five-axis tensor carries its five
dimension sizes and a total data function on natural indices with rational
entries. The canonical ingestion layout is (batch, time, height, width,
channel), i.e. axis 0 is the batch axis and axis 4 is the channel axis.

External collaborators are modelled as parameters: the loss criterion
(produced by the loss factory in loss_helpers, outside src/) is a function
field of the model state, the instantiated backbone network is the
function field model_fn, and torch.sigmoid is a function argument of the
step functions. The torchmetrics binary metrics are modelled at the level
of their accumulated confusion counts: Metric.forward (the call syntax
used in training_step) updates the running state and returns the value
computed on the current batch alone, while Metric.update (used in
validation_step) only updates the running state and returns None, which we
model as the Option value none.
-/

namespace GestureClassification

/-- A Python runtime value as far as the keypoint flag is concerned:
booleans, integers and strings, compared with the Python equality in which
False equals 0 and True equals 1. -/
inductive PyVal where
  | pyBool (b : Bool)
  | pyInt (n : Int)
  | pyStr (s : String)
deriving DecidableEq

/-- Python equality on PyVal: bool is an int subtype, so False == 0 and
True == 1; values of unrelated types compare unequal. -/
def pyEq : PyVal → PyVal → Bool
  | .pyBool a, .pyBool b => a == b
  | .pyInt a, .pyInt b => a == b
  | .pyStr a, .pyStr b => a == b
  | .pyBool a, .pyInt n => (if a then (1 : Int) else 0) == n
  | .pyInt n, .pyBool a => n == (if a then (1 : Int) else 0)
  | _, _ => false

/-- Python membership test v in list, elementwise by pyEq. -/
def pyIn (v : PyVal) (l : List PyVal) : Bool :=
  l.any (fun e => pyEq v e)

/-- A five-axis tensor: dimension sizes d0..d4 and a total data function.
In the canonical ingestion layout, (d0,d1,d2,d3,d4) = (B,T,H,W,C). -/
structure Tensor5 where
  d0 : Nat
  d1 : Nat
  d2 : Nat
  d3 : Nat
  d4 : Nat
  data : Nat → Nat → Nat → Nat → Nat → ℚ

/-- A two-axis tensor (rows = batch samples, cols = logit columns). -/
structure Tensor2 where
  rows : Nat
  cols : Nat
  data : Nat → Nat → ℚ

/-- einops rearrange "b t h w c -> b c t h w" (model.py line 85). -/
def rearrange_bthwc_to_bcthw (x : Tensor5) : Tensor5 :=
  ⟨x.d0, x.d4, x.d1, x.d2, x.d3, fun b c t h w => x.data b t h w c⟩

/-- einops rearrange "b t h w c -> b t c h w" (model.py line 87). -/
def rearrange_bthwc_to_btchw (x : Tensor5) : Tensor5 :=
  ⟨x.d0, x.d1, x.d4, x.d2, x.d3, fun b t c h w => x.data b t h w c⟩

/-- The inverse axis permutation "b c t h w -> b t h w c", stated by the
spec round-trip law; it undoes rearrange_bthwc_to_bcthw. -/
def rearrange_bcthw_to_bthwc (y : Tensor5) : Tensor5 :=
  ⟨y.d0, y.d2, y.d3, y.d4, y.d1, fun b t h w c => y.data b c t h w⟩

/-- The inverse axis permutation "b t c h w -> b t h w c", stated by the
spec round-trip law; it undoes rearrange_bthwc_to_btchw. -/
def rearrange_btchw_to_bthwc (y : Tensor5) : Tensor5 :=
  ⟨y.d0, y.d1, y.d3, y.d4, y.d2, fun b t h w c => y.data b t c h w⟩

/-- The pointwise effect of the slice assignment x[:3] = x[:3] - 0.5
(model.py line 80): axis 0 is the leading axis of the tensor, so the
assignment rewrites the slices with index below 3 along axis 0. -/
def sliceSub (x : Tensor5) : Tensor5 :=
  { x with data := fun i a b c d =>
      if i < 3 then x.data i a b c d - 0.5 else x.data i a b c d }

/-- LitModel._normalize (model.py lines 78-81), value-level behaviour:
when self.use_keypoints is Python-in [0, 1], perform the slice update,
else return the input unchanged. -/
def _normalize (use_keypoints : PyVal) (x : Tensor5) : Tensor5 :=
  if pyIn use_keypoints [.pyInt 0, .pyInt 1] then sliceSub x else x

/-- LitModel._reshape (model.py lines 83-88). -/
def _reshape (model_name : String) (x : Tensor5) : Tensor5 :=
  if model_name = "timesformer" then rearrange_bthwc_to_bcthw x
  else if model_name = "videomae" then rearrange_bthwc_to_btchw x
  else x

/-- Heap model for the in-place semantics of _normalize: tensors live at
numeric addresses; a Python tensor variable is an address into the heap. -/
abbrev TensorHeap : Type := List Tensor5

/-- LitModel._normalize at reference level: the slice assignment
x[:3] = x[:3] - 0.5 mutates the tensor stored at the argument address and
return x returns the very same address; no new tensor is allocated. -/
def _normalize_ref (use_keypoints : PyVal) (r : Nat) (h : TensorHeap) :
    Nat × TensorHeap :=
  if pyIn use_keypoints [.pyInt 0, .pyInt 1] then
    (r, h.set r (sliceSub (h.getD r ⟨0, 0, 0, 0, 0, fun _ _ _ _ _ => 0⟩)))
  else (r, h)

/-- Accumulated confusion counts of one torchmetrics binary metric. -/
structure BinStats where
  tp : Nat
  fp : Nat
  tn : Nat
  fn : Nat
deriving DecidableEq

/-- Merge two confusion-count states (the torchmetrics state reduction). -/
def BinStats.add (s u : BinStats) : BinStats :=
  ⟨s.tp + u.tp, s.fp + u.fp, s.tn + u.tn, s.fn + u.fn⟩

/-- Confusion counts of one batch: probabilities are binarized by the
default torchmetrics threshold (prob > 0.5) and compared to the labels. -/
def statsOfBatch (probs : List ℚ) (target : List Bool) : BinStats :=
  (probs.zip target).foldl
    (fun s py =>
      let pred := decide (py.1 > 0.5)
      if pred && py.2 then { s with tp := s.tp + 1 }
      else if pred && !py.2 then { s with fp := s.fp + 1 }
      else if !pred && py.2 then { s with fn := s.fn + 1 }
      else { s with tn := s.tn + 1 })
    ⟨0, 0, 0, 0⟩

/-- torchmetrics safe division: zero denominator yields 0. -/
def safe_divide (num den : ℚ) : ℚ :=
  if den = 0 then 0 else num / den

/-- BinaryAccuracy.compute. -/
def BinStats.accuracy (s : BinStats) : ℚ :=
  safe_divide (s.tp + s.tn) (s.tp + s.fp + s.tn + s.fn)

/-- BinaryPrecision.compute. -/
def BinStats.precision (s : BinStats) : ℚ :=
  safe_divide s.tp (s.tp + s.fp)

/-- BinaryRecall.compute. -/
def BinStats.recall (s : BinStats) : ℚ :=
  safe_divide s.tp (s.tp + s.fn)

/-- BinaryF1Score.compute. -/
def BinStats.f1 (s : BinStats) : ℚ :=
  safe_divide (2 * s.tp) (2 * s.tp + s.fp + s.fn)

/-- BinaryJaccardIndex.compute (intersection over union). -/
def BinStats.iou (s : BinStats) : ℚ :=
  safe_divide s.tp (s.tp + s.fp + s.fn)

/-- torchmetrics Metric call syntax metric(probs, y), as in training_step:
it folds the batch counts into the running state and returns the metric
value computed on the current batch alone. -/
def metric_forward (compute : BinStats → ℚ) (state : BinStats)
    (probs : List ℚ) (target : List Bool) : BinStats × ℚ :=
  let batch := statsOfBatch probs target
  (state.add batch, compute batch)

/-- torchmetrics Metric.update(probs, y), as in validation_step: it folds
the batch counts into the running state and returns None (modelled as
none), never a metric value. -/
def metric_update (state : BinStats) (probs : List ℚ) (target : List Bool) :
    BinStats × Option ℚ :=
  (state.add (statsOfBatch probs target), none)

/-- The configured backbone object returned by configure_model. -/
inductive Backbone where
  | timeSformer (img_size : Nat) (num_classes : Nat) (num_frames : Nat)
      (attention_type : String) (pretrained_model : String)
      (in_chans : Option Nat)
  | r2plus1d_18 (fc_out : Nat)
  | videoMAE (num_frames : Nat) (qkv_bias : Bool) (num_labels : Nat)
deriving DecidableEq

/-- The channel-count derivation at the top of configure_model (model.py
lines 195-200): no else branch exists, so a keypoint value matching none
of the three comparisons leaves in_chans unbound, modelled as none. -/
def derive_in_chans (use_keypoints : PyVal) : Option Nat :=
  if pyEq use_keypoints (.pyBool false) then some 3
  else if pyEq use_keypoints (.pyBool true) then some 4
  else if pyEq use_keypoints (.pyStr "only") then some 1
  else none

/-- LitModel.configure_model (model.py lines 193-224). The dispatch on
model_name has no else branch: an unrecognized tag reaches return model
with the local model unbound, modelled as none. -/
def configure_model (model_name : String) (pretrained_model : String)
    (use_keypoints : PyVal) (num_frames : Nat) : Option Backbone :=
  let in_chans := derive_in_chans use_keypoints
  if model_name = "timesformer" then
    some (.timeSformer 224 1 num_frames "divided_space_time"
      pretrained_model in_chans)
  else if model_name = "r2plus1" then
    some (.r2plus1d_18 1)
  else if model_name = "videomae" then
    some (.videoMAE num_frames false 1)
  else none

/-- The Adam optimizer built by configure_optimizers, reduced to the two
hyperparameters this module sets. -/
structure Optimizer where
  lr : ℚ
  weight_decay : ℚ
deriving DecidableEq

/-- The scheduler object built by configure_scheduler. -/
inductive Scheduler where
  | multiStepLR (optimizer : Optimizer) (milestones : List Nat) (gamma : ℚ)
deriving DecidableEq

/-- LitModel.configure_scheduler (model.py lines 177-191): only the name
multi-step-lr is dispatched; any other name reaches return scheduler with
the local scheduler unbound, modelled as none. -/
def configure_scheduler (optimizer : Optimizer) (scheduler_name : String)
    (scheduler_milstones : List Nat) (scheduler_gamma : ℚ) :
    Option Scheduler :=
  if scheduler_name = "multi-step-lr" then
    some (.multiStepLR optimizer scheduler_milstones scheduler_gamma)
  else none

/-- The raw result of calling the backbone network: either a plain logits
tensor, or the structured output of the video masked-autoencoder model
whose logits field holds the classification logits. -/
inductive ModelOut where
  | raw (t : Tensor2)
  | structured (logits : Tensor2)

/-- The mutable state of a LitModel instance: the fields set in __init__
(model.py lines 52-76) plus a log of the (name, value) pairs emitted by
self.log calls. The criterion field stands for the callable produced by
the external loss factory, and model_fn stands for the numeric behaviour
of the instantiated backbone self.model. -/
structure LitModel where
  model_name : String
  learning_rate : ℚ
  weight_decay : ℚ
  model : Option Backbone
  scheduler_name : String
  scheduler_milestones : List Nat
  scheduler_gamma : ℚ
  criterion : List ℚ → List ℚ → ℚ
  train_precision : BinStats
  train_accuracy : BinStats
  train_recall : BinStats
  train_f1 : BinStats
  train_iou : BinStats
  val_precision : BinStats
  val_accuracy : BinStats
  val_recall : BinStats
  val_f1 : BinStats
  val_iou : BinStats
  use_keypoints : PyVal
  model_fn : Tensor5 → ModelOut
  logs : List (String × ℚ)

/-- LitModel.__init__ (model.py lines 38-76): stores the configuration,
builds the backbone through configure_model, and starts every metric
accumulator empty. -/
def mkLitModel (model_name : String) (pretrained_model : String)
    (num_frames : Nat) (learning_rate weight_decay : ℚ)
    (criterion : List ℚ → List ℚ → ℚ) (scheduler_name : String)
    (scheduler_milestones : List Nat) (scheduler_gamma : ℚ)
    (use_keypoints : PyVal) (model_fn : Tensor5 → ModelOut) : LitModel :=
  { model_name := model_name
    learning_rate := learning_rate
    weight_decay := weight_decay
    model := configure_model model_name pretrained_model use_keypoints
      num_frames
    scheduler_name := scheduler_name
    scheduler_milestones := scheduler_milestones
    scheduler_gamma := scheduler_gamma
    criterion := criterion
    train_precision := ⟨0, 0, 0, 0⟩
    train_accuracy := ⟨0, 0, 0, 0⟩
    train_recall := ⟨0, 0, 0, 0⟩
    train_f1 := ⟨0, 0, 0, 0⟩
    train_iou := ⟨0, 0, 0, 0⟩
    val_precision := ⟨0, 0, 0, 0⟩
    val_accuracy := ⟨0, 0, 0, 0⟩
    val_recall := ⟨0, 0, 0, 0⟩
    val_f1 := ⟨0, 0, 0, 0⟩
    val_iou := ⟨0, 0, 0, 0⟩
    use_keypoints := use_keypoints
    model_fn := model_fn
    logs := [] }

/-- LitModel.forward (model.py lines 90-94): call the backbone; for
videomae extract the logits field of the structured output (attribute
access on a plain tensor would raise, modelled as none); for every other
backbone the raw output is passed through unchanged. -/
def forward (m : LitModel) (x : Tensor5) : Option ModelOut :=
  let logits := m.model_fn x
  if m.model_name = "videomae" then
    match logits with
    | .structured l => some (.raw l)
    | .raw _ => none
  else some logits

/-- The logit column extracted by the steps: out[:, 0], one scalar per
sample row. Indexing column 0 of a tensor with no columns raises,
modelled as none, as does subscripting a structured output object. -/
def logit_column (t : Tensor2) : List ℚ :=
  (List.range t.rows).map (fun i => t.data i 0)

/-- Evaluate out[:, 0] on a model output. -/
def col0 : ModelOut → Option (List ℚ)
  | .raw t => if 0 < t.cols then some (logit_column t) else none
  | .structured _ => none

/-- The tensor handed to the forward pass by both steps: training_step
line 98 and validation_step line 124 both run x = self.reshape(x) and
nothing else before self(x). -/
def step_model_input (m : LitModel) (x : Tensor5) : Tensor5 :=
  _reshape m.model_name x

/-- Cast the integer label tensor to float: y.float(). -/
def floatLabels (y : List Bool) : List ℚ :=
  y.map (fun b => if b then (1 : ℚ) else 0)

/-- LitModel.training_step (model.py lines 96-113). sigmoid is the
external torch.sigmoid primitive. Result: the updated model state and the
returned loss; none models a raised exception in the forward path. -/
def training_step (sigmoid : ℚ → ℚ) (m : LitModel)
    (batch : Tensor5 × List Bool) : Option (LitModel × ℚ) :=
  let x := batch.1
  let y := batch.2
  let x := step_model_input m x
  ((forward m x).bind col0).map (fun y_hat =>
      let loss := m.criterion y_hat (floatLabels y)
      let probs := y_hat.map sigmoid
      let accR := metric_forward BinStats.accuracy m.train_accuracy probs y
      let precR := metric_forward BinStats.precision m.train_precision
        probs y
      let recR := metric_forward BinStats.recall m.train_recall probs y
      let f1R := metric_forward BinStats.f1 m.train_f1 probs y
      let iouR := metric_forward BinStats.iou m.train_iou probs y
      ({ m with
        train_accuracy := accR.1
        train_precision := precR.1
        train_recall := recR.1
        train_f1 := f1R.1
        train_iou := iouR.1
        logs := m.logs ++
          [("train_loss_step", loss), ("train_acc_step", accR.2),
           ("train_prec_step", precR.2), ("train_rec_step", recR.2),
           ("train_f1_step", f1R.2), ("train_iou_step", iouR.2)] }, loss))

/-- LitModel.training_epoch_end (model.py lines 115-120): reset the five
training accumulators; nothing is logged and nothing else changes. -/
def training_epoch_end (m : LitModel) : LitModel :=
  { m with
    train_accuracy := ⟨0, 0, 0, 0⟩
    train_precision := ⟨0, 0, 0, 0⟩
    train_recall := ⟨0, 0, 0, 0⟩
    train_f1 := ⟨0, 0, 0, 0⟩
    train_iou := ⟨0, 0, 0, 0⟩ }

/-- A value stored in the dictionary returned by validation_step: either
a scalar tensor or the Python None object (the return value of
Metric.update in torchmetrics). -/
inductive StepVal where
  | tensor (q : ℚ)
  | pyNone
deriving DecidableEq

/-- The dictionary returned by validation_step (model.py lines 134-141),
as an association list in the literal key order of the source. -/
def ValStepOut : Type := List (String × StepVal)

/-- View a Python value that is either a scalar tensor or None as a
dictionary value. -/
def asStepVal : Option ℚ → StepVal
  | some q => .tensor q
  | none => .pyNone

/-- LitModel.validation_step (model.py lines 122-141): same forward path
as training, logs val_loss, then calls update (not the metric call
syntax) on the five validation accumulators in source order acc, prec,
rec, iou, f1, and returns the dictionary of the update return values
alongside the loss. -/
def validation_step (sigmoid : ℚ → ℚ) (m : LitModel)
    (batch : Tensor5 × List Bool) : Option (LitModel × ValStepOut) :=
  let x := batch.1
  let y := batch.2
  let x := step_model_input m x
  ((forward m x).bind col0).map (fun y_hat =>
      let loss := m.criterion y_hat (floatLabels y)
      let m1 := { m with logs := m.logs ++ [("val_loss", loss)] }
      let probs := y_hat.map sigmoid
      let accR := metric_update m1.val_accuracy probs y
      let precR := metric_update m1.val_precision probs y
      let recR := metric_update m1.val_recall probs y
      let iouR := metric_update m1.val_iou probs y
      let f1R := metric_update m1.val_f1 probs y
      ({ m1 with
        val_accuracy := accR.1
        val_precision := precR.1
        val_recall := recR.1
        val_iou := iouR.1
        val_f1 := f1R.1 },
        [("loss", .tensor loss), ("acc", asStepVal accR.2),
         ("rec", asStepVal recR.2), ("prec", asStepVal precR.2),
         ("f1", asStepVal f1R.2), ("iou", asStepVal iouR.2)]))

/-- LitModel.validation_epoch_end (model.py lines 143-154): first compute
and log the epoch value of each of the five validation metrics from the
accumulated state, then reset all five accumulators. -/
def validation_epoch_end (m : LitModel) : LitModel :=
  let acc := m.val_accuracy.accuracy
  let m1 := { m with logs := m.logs ++
    [("val_acc", acc), ("val_prec", m.val_precision.precision),
     ("val_rec", m.val_recall.recall), ("val_f1", m.val_f1.f1),
     ("val_iou", m.val_iou.iou)] }
  { m1 with
    val_accuracy := ⟨0, 0, 0, 0⟩
    val_precision := ⟨0, 0, 0, 0⟩
    val_recall := ⟨0, 0, 0, 0⟩
    val_f1 := ⟨0, 0, 0, 0⟩
    val_iou := ⟨0, 0, 0, 0⟩ }

/-- Concrete tensor with one batch sample and four channels, all zero. -/
def X3 : Tensor5 := ⟨1, 1, 1, 1, 4, fun _ _ _ _ _ => 0⟩

/-- Concrete model with the r2plus1 backbone and keypoint flag 0. -/
def M2 : LitModel :=
  mkLitModel "r2plus1" "" 16 (1 / 10000) 0 (fun _ _ => 0) "multi-step-lr"
    [5, 10] (1 / 10) (.pyInt 0) (fun _ => .raw ⟨1, 1, fun _ _ => 0⟩)

/-- Concrete all-zero tensor of shape (1,1,1,1,3). -/
def X2 : Tensor5 := ⟨1, 1, 1, 1, 3, fun _ _ _ _ _ => 0⟩

/-- Concrete tensor of shape (2,3,4,5,6). -/
def X7 : Tensor5 := ⟨2, 3, 4, 5, 6, fun _ _ _ _ _ => 0⟩

/-- Concrete logits tensor with two rows and one column. -/
def T8 : Tensor2 := ⟨2, 1, fun _ _ => 3⟩

/-- Concrete model with the videomae backbone whose network returns a
structured output carrying T8 as logits. -/
def M8 : LitModel :=
  mkLitModel "videomae" "" 16 1 0 (fun _ _ => 0) "multi-step-lr" [1] 1
    (.pyInt 0) (fun _ => .structured T8)

/-- Concrete input tensor for the videomae model. -/
def X8 : Tensor5 := ⟨2, 16, 4, 4, 3, fun _ _ _ _ _ => 0⟩

/-- Concrete model with the r2plus1 backbone for the step functions. -/
def M9 : LitModel :=
  mkLitModel "r2plus1" "" 4 1 0 (fun _ _ => 1) "multi-step-lr" [1] 1
    (.pyInt 0) (fun _ => .raw ⟨1, 1, fun _ _ => 1⟩)

/-- Concrete one-sample batch with a positive label. -/
def B9 : Tensor5 × List Bool := (⟨1, 1, 1, 1, 3, fun _ _ _ _ _ => 1⟩, [true])

/-- The result of one training step on M9 and B9. -/
def R9 : LitModel × ℚ := (training_step (fun z => z) M9 B9).getD (M9, 0)

/-- Concrete tensor stored in a one-cell heap. -/
def X10 : Tensor5 := ⟨2, 1, 1, 1, 3, fun _ _ _ _ _ => 1⟩

/-- Concrete logits tensor for the validation model. -/
def T1 : Tensor2 := ⟨2, 1, fun _ _ => 1⟩

/-- Concrete model with the r2plus1 backbone and constant loss 7/10. -/
def M1 : LitModel :=
  mkLitModel "r2plus1" "" 16 (1 / 10000) 0 (fun _ _ => 7 / 10)
    "multi-step-lr" [5, 10] (1 / 10) (.pyInt 0) (fun _ => .raw T1)

/-- Concrete all-zero tensor of shape (2,16,1,1,3). -/
def X1 : Tensor5 := ⟨2, 16, 1, 1, 3, fun _ _ _ _ _ => 0⟩

/-- C4: at construction the channel count is derived from the keypoint
mode by the exact mapping disabled (False, Python-equal to 0) to 3,
enabled (True, Python-equal to 1) to 4, the string only to 1; any other
value matches no branch, no error is raised, and the count stays unbound
(none): configure_model still builds a timesformer with in_chans none. -/
theorem keypoint_channel_mapping :
    derive_in_chans (.pyBool false) = some 3 ∧
    derive_in_chans (.pyBool true) = some 4 ∧
    derive_in_chans (.pyStr "only") = some 1 ∧
    ∀ v : PyVal, pyEq v (.pyBool false) = false →
      pyEq v (.pyBool true) = false → pyEq v (.pyStr "only") = false →
      derive_in_chans v = none ∧
      ∀ pm nf, configure_model "timesformer" pm v nf =
        some (.timeSformer 224 1 nf "divided_space_time" pm none) := by
  refine ⟨rfl, rfl, rfl, fun v h1 h2 h3 => ⟨?_, fun pm nf => ?_⟩⟩
  · simp [derive_in_chans, h1, h2, h3]
  · simp [configure_model, derive_in_chans, h1, h2, h3]

/-- Witness for keypoint_channel_mapping at the out-of-range keypoint
value maybe. -/
theorem keypoint_channel_mapping_witness :
    derive_in_chans (.pyStr "maybe") = none ∧
    configure_model "timesformer" "w.pt" (.pyStr "maybe") 8 =
      some (.timeSformer 224 1 8 "divided_space_time" "w.pt" none) :=
  ⟨(keypoint_channel_mapping.2.2.2 (.pyStr "maybe") (by decide) (by decide)
      (by decide)).1,
   (keypoint_channel_mapping.2.2.2 (.pyStr "maybe") (by decide) (by decide)
      (by decide)).2 "w.pt" 8⟩

/-- C5: exactly two dispatch paths are unguarded: every backbone tag
outside timesformer, r2plus1, videomae leaves the model unbound (none)
with no raised diagnosable failure, and every scheduler name other than
multi-step-lr leaves the scheduler unbound (none); the named tags and the
named scheduler all produce a bound value. -/
theorem dispatch_unguarded :
    (∀ name, name ≠ "timesformer" → name ≠ "r2plus1" →
      name ≠ "videomae" → ∀ pm uk nf,
      configure_model name pm uk nf = none) ∧
    (∀ pm uk nf, (configure_model "timesformer" pm uk nf).isSome ∧
      (configure_model "r2plus1" pm uk nf).isSome ∧
      (configure_model "videomae" pm uk nf).isSome) ∧
    (∀ opt sname, sname ≠ "multi-step-lr" → ∀ ms g,
      configure_scheduler opt sname ms g = none) ∧
    (∀ opt ms g, (configure_scheduler opt "multi-step-lr" ms g).isSome) := by
  refine ⟨fun name h1 h2 h3 pm uk nf => ?_, fun pm uk nf => ?_,
    fun opt sname h ms g => ?_, fun opt ms g => ?_⟩
  · simp [configure_model, h1, h2, h3]
  · refine ⟨?_, ?_, ?_⟩ <;> simp [configure_model]
  · simp [configure_scheduler, h]
  · simp [configure_scheduler]

/-- Witness for dispatch_unguarded at the unrecognized tag resnet3d and
the unrecognized scheduler name cosine. -/
theorem dispatch_unguarded_witness :
    configure_model "resnet3d" "" (.pyInt 0) 8 = none ∧
    configure_scheduler ⟨1 / 1000, 0⟩ "cosine" [5] (1 / 10) = none :=
  ⟨dispatch_unguarded.1 "resnet3d" (by decide) (by decide) (by decide) ""
      (.pyInt 0) 8,
   dispatch_unguarded.2.2.1 ⟨1 / 1000, 0⟩ "cosine" (by decide) [5] (1 / 10)⟩

/-- C6: the training epoch-end hook emits nothing (the log is unchanged),
clears exactly the five training accumulators and leaves the validation
accumulators alone; the validation epoch-end hook appends the epoch value
of each of the five metrics computed from the incoming (pre-reset)
accumulator states and only then resets all five, so the read always
precedes the reset. -/
theorem epoch_end_read_then_reset : ∀ m : LitModel,
    (training_epoch_end m).logs = m.logs ∧
    (training_epoch_end m).train_accuracy = ⟨0, 0, 0, 0⟩ ∧
    (training_epoch_end m).train_precision = ⟨0, 0, 0, 0⟩ ∧
    (training_epoch_end m).train_recall = ⟨0, 0, 0, 0⟩ ∧
    (training_epoch_end m).train_f1 = ⟨0, 0, 0, 0⟩ ∧
    (training_epoch_end m).train_iou = ⟨0, 0, 0, 0⟩ ∧
    (training_epoch_end m).val_accuracy = m.val_accuracy ∧
    (training_epoch_end m).val_precision = m.val_precision ∧
    (training_epoch_end m).val_recall = m.val_recall ∧
    (training_epoch_end m).val_f1 = m.val_f1 ∧
    (training_epoch_end m).val_iou = m.val_iou ∧
    (validation_epoch_end m).logs = m.logs ++
      [("val_acc", m.val_accuracy.accuracy),
       ("val_prec", m.val_precision.precision),
       ("val_rec", m.val_recall.recall),
       ("val_f1", m.val_f1.f1),
       ("val_iou", m.val_iou.iou)] ∧
    (validation_epoch_end m).val_accuracy = ⟨0, 0, 0, 0⟩ ∧
    (validation_epoch_end m).val_precision = ⟨0, 0, 0, 0⟩ ∧
    (validation_epoch_end m).val_recall = ⟨0, 0, 0, 0⟩ ∧
    (validation_epoch_end m).val_f1 = ⟨0, 0, 0, 0⟩ ∧
    (validation_epoch_end m).val_iou = ⟨0, 0, 0, 0⟩ ∧
    (validation_epoch_end m).train_accuracy = m.train_accuracy ∧
    (validation_epoch_end m).train_precision = m.train_precision ∧
    (validation_epoch_end m).train_recall = m.train_recall ∧
    (validation_epoch_end m).train_f1 = m.train_f1 ∧
    (validation_epoch_end m).train_iou = m.train_iou :=
  fun _ => ⟨rfl, rfl, rfl, rfl, rfl, rfl, rfl, rfl, rfl, rfl, rfl, rfl,
    rfl, rfl, rfl, rfl, rfl, rfl, rfl, rfl, rfl, rfl⟩

/-- C7: reshape is a pure axis permutation: on any (B,T,H,W,C) tensor the
timesformer branch yields shape (B,C,T,H,W) and the videomae branch
yields (B,T,C,H,W); applying the corresponding inverse permutation
recovers the original tensor exactly, and every other backbone name is
the identity. -/
theorem reshape_axis_permutation_roundtrip : ∀ x : Tensor5,
    ((_reshape "timesformer" x).d0 = x.d0 ∧
     (_reshape "timesformer" x).d1 = x.d4 ∧
     (_reshape "timesformer" x).d2 = x.d1 ∧
     (_reshape "timesformer" x).d3 = x.d2 ∧
     (_reshape "timesformer" x).d4 = x.d3) ∧
    ((_reshape "videomae" x).d0 = x.d0 ∧
     (_reshape "videomae" x).d1 = x.d1 ∧
     (_reshape "videomae" x).d2 = x.d4 ∧
     (_reshape "videomae" x).d3 = x.d2 ∧
     (_reshape "videomae" x).d4 = x.d3) ∧
    rearrange_bcthw_to_bthwc (_reshape "timesformer" x) = x ∧
    rearrange_btchw_to_bthwc (_reshape "videomae" x) = x ∧
    ∀ name, name ≠ "timesformer" → name ≠ "videomae" →
      _reshape name x = x := by
  intro x
  refine ⟨⟨rfl, rfl, rfl, rfl, rfl⟩, ⟨rfl, rfl, rfl, rfl, rfl⟩, rfl, rfl,
    fun name h1 h2 => ?_⟩
  simp [_reshape, h1, h2]

/-- Witness for reshape_axis_permutation_roundtrip on the pass-through
backbone r2plus1. -/
theorem reshape_axis_permutation_roundtrip_witness :
    _reshape "r2plus1" X7 = X7 :=
  (reshape_axis_permutation_roundtrip X7).2.2.2.2 "r2plus1" (by decide)
    (by decide)

/-- C3 counterexample: on an all-zero tensor of shape (1,1,1,1,4) in
canonical layout with keypoint mode disabled, the fourth (keypoint)
channel of the first sample is changed by _normalize, although the claim
says the fourth channel is left unchanged: the slice x[:3] runs along the
first axis, not the channel axis. -/
theorem normalize_fourth_channel_changed :
    (_normalize (.pyBool false) X3).data 0 0 0 0 3 ≠ X3.data 0 0 0 0 3 := by
  norm_num [_normalize, pyIn, pyEq, X3, sliceSub]

/-- C3 amended: when the keypoint flag is Python-equal to 0 or to 1,
_normalize subtracts 0.5 from every entry whose index along the first
(batch) axis is below 3 - across all channels - and leaves the remaining
entries and the shape unchanged; otherwise (in particular for the
keypoints-only flag) it is the identity. -/
theorem normalize_first_axis_slices : ∀ (uk : PyVal) (x : Tensor5),
    (pyIn uk [.pyInt 0, .pyInt 1] = true →
      (_normalize uk x).d0 = x.d0 ∧ (_normalize uk x).d1 = x.d1 ∧
      (_normalize uk x).d2 = x.d2 ∧ (_normalize uk x).d3 = x.d3 ∧
      (_normalize uk x).d4 = x.d4 ∧
      ∀ i a b c d, (_normalize uk x).data i a b c d =
        if i < 3 then x.data i a b c d - 0.5 else x.data i a b c d) ∧
    (pyIn uk [.pyInt 0, .pyInt 1] = false → _normalize uk x = x) := by
  intro uk x
  constructor
  · intro h
    refine ⟨?_, ?_, ?_, ?_, ?_, fun i a b c d => ?_⟩ <;>
      simp [_normalize, h, sliceSub]
  · intro h
    simp [_normalize, h]

/-- Witness for normalize_first_axis_slices: the enabled flag True is
Python-in [0, 1] and rewrites the first-axis slice of X3, and the
keypoints-only flag leaves X3 untouched. -/
theorem normalize_first_axis_slices_witness :
    pyIn (.pyBool true) [.pyInt 0, .pyInt 1] = true ∧
    (_normalize (.pyBool true) X3).data 0 0 0 0 0 =
      (if (0 : Nat) < 3 then X3.data 0 0 0 0 0 - 0.5
       else X3.data 0 0 0 0 0) ∧
    _normalize (.pyStr "only") X3 = X3 :=
  ⟨by decide,
   ((normalize_first_axis_slices (.pyBool true) X3).1
      (by decide)).2.2.2.2.2 0 0 0 0 0,
   (normalize_first_axis_slices (.pyStr "only") X3).2 (by decide)⟩

/-- C2 counterexample: on the concrete model M2 (r2plus1 backbone,
keypoint flag 0) and the all-zero batch tensor X2, the tensor handed to
the forward pass is not the claimed normalize-after-reshape result: the
normalization branch would subtract 0.5 but is never invoked by the
steps. -/
theorem step_input_not_normalized :
    step_model_input M2 X2 ≠
      _normalize M2.use_keypoints (_reshape M2.model_name X2) := by
  intro hc
  have h0 := congrArg (fun t => t.data 0 0 0 0 0) hc
  simp only [step_model_input, M2, X2, mkLitModel, _reshape, _normalize,
    sliceSub, pyIn, pyEq, List.any] at h0
  rw [if_neg (show ¬("r2plus1" = "timesformer") by decide),
    if_neg (show ¬("r2plus1" = "videomae") by decide)] at h0
  norm_num at h0

/-- C2 amended: on every training and validation step only the reshape
adaptation is applied to the input tensor before the forward pass
(step_model_input is exactly the reshape dispatch, applied to the model
input only); the normalize operation bound at construction is never
invoked by either step, so the step results are independent of the
keypoint mode apart from the stored field itself. -/
theorem steps_ignore_normalize :
    (∀ (m : LitModel) (x : Tensor5),
      step_model_input m x = _reshape m.model_name x) ∧
    (∀ (sig : ℚ → ℚ) (m : LitModel) (uk : PyVal)
      (b : Tensor5 × List Bool),
      training_step sig { m with use_keypoints := uk } b =
        (training_step sig m b).map
          (fun r => ({ r.1 with use_keypoints := uk }, r.2))) ∧
    (∀ (sig : ℚ → ℚ) (m : LitModel) (uk : PyVal)
      (b : Tensor5 × List Bool),
      validation_step sig { m with use_keypoints := uk } b =
        (validation_step sig m b).map
          (fun r => ({ r.1 with use_keypoints := uk }, r.2))) := by
  refine ⟨fun m x => rfl, fun sig m uk b => ?_, fun sig m uk b => ?_⟩
  · simp only [training_step, Option.map_map]
    exact congrArg
      (fun f => Option.map f ((forward m (step_model_input m b.1)).bind
        col0)) (funext fun yh => rfl)
  · simp only [validation_step, Option.map_map]
    exact congrArg
      (fun f => Option.map f ((forward m (step_model_input m b.1)).bind
        col0)) (funext fun yh => rfl)

/-- C8: for the videomae backbone the logits are extracted explicitly
from the structured model output; for every other backbone the raw model
output is used as the logits tensor unchanged; and the column selection
out[:, 0] performed by each step yields exactly one scalar logit per
sample row of the logits tensor. -/
theorem forward_extracts_single_logit :
    (∀ (m : LitModel) (x : Tensor5) (t : Tensor2),
      m.model_name = "videomae" → m.model_fn x = .structured t →
      forward m x = some (.raw t)) ∧
    (∀ (m : LitModel) (x : Tensor5), m.model_name ≠ "videomae" →
      forward m x = some (m.model_fn x)) ∧
    (∀ t : Tensor2, 0 < t.cols →
      col0 (.raw t) = some (logit_column t) ∧
      (logit_column t).length = t.rows) := by
  refine ⟨fun m x t h1 h2 => ?_, fun m x h => ?_, fun t h => ⟨?_, ?_⟩⟩
  · simp [forward, h1, h2]
  · simp [forward, h]
  · simp [col0, h]
  · simp [logit_column]

/-- Witness for forward_extracts_single_logit on the concrete videomae
model M8 with two-sample structured logits T8. -/
theorem forward_extracts_single_logit_witness :
    forward M8 X8 = some (.raw T8) ∧
    col0 (.raw T8) = some (logit_column T8) ∧
    (logit_column T8).length = T8.rows :=
  ⟨forward_extracts_single_logit.1 M8 X8 T8 rfl rfl,
   (forward_extracts_single_logit.2.2 T8 (by decide)).1,
   (forward_extracts_single_logit.2.2 T8 (by decide)).2⟩

/-- C9: no step or epoch-end operation changes the stored backbone name,
keypoint mode or model instance: every successful training or validation
step and both epoch-end hooks preserve the three fields selected at
construction. -/
theorem backbone_selection_immutable :
    (∀ (sig : ℚ → ℚ) (m : LitModel) (b : Tensor5 × List Bool)
      (r : LitModel × ℚ), training_step sig m b = some r →
      r.1.model_name = m.model_name ∧
      r.1.use_keypoints = m.use_keypoints ∧ r.1.model = m.model) ∧
    (∀ (sig : ℚ → ℚ) (m : LitModel) (b : Tensor5 × List Bool)
      (r : LitModel × ValStepOut), validation_step sig m b = some r →
      r.1.model_name = m.model_name ∧
      r.1.use_keypoints = m.use_keypoints ∧ r.1.model = m.model) ∧
    (∀ m : LitModel, (training_epoch_end m).model_name = m.model_name ∧
      (training_epoch_end m).use_keypoints = m.use_keypoints ∧
      (training_epoch_end m).model = m.model) ∧
    (∀ m : LitModel, (validation_epoch_end m).model_name = m.model_name ∧
      (validation_epoch_end m).use_keypoints = m.use_keypoints ∧
      (validation_epoch_end m).model = m.model) := by
  refine ⟨fun sig m b r h => ?_, fun sig m b r h => ?_,
    fun m => ⟨rfl, rfl, rfl⟩, fun m => ⟨rfl, rfl, rfl⟩⟩
  · simp only [training_step] at h
    obtain ⟨yh, -, rfl⟩ := Option.map_eq_some'.1 h
    exact ⟨rfl, rfl, rfl⟩
  · simp only [validation_step] at h
    obtain ⟨yh, -, rfl⟩ := Option.map_eq_some'.1 h
    exact ⟨rfl, rfl, rfl⟩

/-- Witness for backbone_selection_immutable on the concrete model M9,
whose training step on batch B9 succeeds with result R9. -/
theorem backbone_selection_immutable_witness :
    training_step (fun z => z) M9 B9 = some R9 ∧
    (R9.1.model_name = M9.model_name ∧
     R9.1.use_keypoints = M9.use_keypoints ∧ R9.1.model = M9.model) :=
  ⟨rfl, backbone_selection_immutable.1 (fun z => z) M9 B9 R9 rfl⟩

/-- C10: when the normalization branch applies, _normalize mutates the
tensor stored at its argument address in place (the address now holds the
slice-updated tensor, every other address is untouched and no new cell is
allocated) and returns the very same address, so the caller holds the
modified tensor rather than a fresh copy. -/
theorem normalize_inplace_aliasing :
    ∀ (uk : PyVal) (r : Nat) (h : TensorHeap) (x : Tensor5),
      pyIn uk [.pyInt 0, .pyInt 1] = true → h[r]? = some x →
      (_normalize_ref uk r h).1 = r ∧
      ((_normalize_ref uk r h).2)[r]? = some (sliceSub x) ∧
      (_normalize_ref uk r h).2.length = h.length ∧
      ∀ r2, r2 ≠ r → ((_normalize_ref uk r h).2)[r2]? = h[r2]? := by
  intro uk r h x huk hx
  have hr : r < h.length := by
    by_contra hc
    push_neg at hc
    rw [List.getElem?_eq_none hc] at hx
    exact Option.noConfusion hx
  have hgetD : h.getD r ⟨0, 0, 0, 0, 0, fun _ _ _ _ _ => 0⟩ = x := by
    rw [List.getD_eq_getElem?_getD, hx]
    rfl
  refine ⟨?_, ?_, ?_, fun r2 hne => ?_⟩
  · simp [_normalize_ref, huk]
  · simp only [_normalize_ref, huk, if_true]
    rw [List.getElem?_set_self (by simpa using hr), hgetD]
  · simp [_normalize_ref, huk]
  · simp only [_normalize_ref, huk, if_true]
    rw [List.getElem?_set_ne (Ne.symm hne)]

/-- Witness for normalize_inplace_aliasing on a one-cell heap holding the
concrete tensor X10, with the enabled keypoint flag 1. -/
theorem normalize_inplace_aliasing_witness :
    pyIn (.pyInt 1) [.pyInt 0, .pyInt 1] = true ∧
    ([X10][0]? = some X10) ∧
    ((_normalize_ref (.pyInt 1) 0 [X10]).1 = 0 ∧
     ((_normalize_ref (.pyInt 1) 0 [X10]).2)[0]? = some (sliceSub X10) ∧
     (_normalize_ref (.pyInt 1) 0 [X10]).2.length = ([X10] : TensorHeap).length ∧
     ∀ r2, r2 ≠ 0 → ((_normalize_ref (.pyInt 1) 0 [X10]).2)[r2]? =
       ([X10] : TensorHeap)[r2]?) :=
  ⟨by decide, rfl,
   normalize_inplace_aliasing (.pyInt 1) 0 [X10] X10 (by decide) rfl⟩

/-- C1: on a concrete validation batch the returned dictionary maps every
metric name to None (the return value of Metric.update), not to the
metric value computed on the current batch: the loss entry is a value but
the five metric entries are all None, though the per-step accuracy of the
same batch (as the metric call syntax used by training_step would return
it) is 1/2. -/
theorem validation_step_metric_entries_are_none :
    (validation_step (fun z => z) M1 (X1, [false, true])).map
      (fun r => r.2) =
      some [("loss", .tensor (7 / 10)), ("acc", .pyNone),
            ("rec", .pyNone), ("prec", .pyNone), ("f1", .pyNone),
            ("iou", .pyNone)] ∧
    (metric_forward BinStats.accuracy M1.val_accuracy [1, 1]
      [false, true]).2 = 1 / 2 := by
  constructor
  · rfl
  · norm_num [metric_forward, statsOfBatch, BinStats.accuracy,
      BinStats.add, safe_divide, List.zip, List.zipWith, List.foldl, M1,
      mkLitModel]

end GestureClassification
